import Mathlib

/-!
Shallow embedding of the Patternle rule-based sequence synthesis and
validation engine (src/lib/rules/types.ts, src/lib/rules/evaluators.ts,
src/lib/rules/validation.ts and the generation orchestrator), together with
theorems settling the frozen claims about it.

Numeric conventions: the evaluator works on integer sequences and integer
parameters (the data model declares all sequence terms and starting values
to be integers), so its values are modelled as `Int`.  The validator receives
arbitrary JavaScript numbers, so puzzle sequences and answers are modelled as
`Rat`; `Number.isInteger` becomes `den = 1` and `Math.round` becomes
half-up rounding.  The evaluator's stringly-typed rule-kind dispatch (a TS
string enum, with `as`-casts able to inject arbitrary tokens) is modelled by
plain `String` tokens, and a thrown `Error` by `Except String`.
-/

deriving instance DecidableEq for Except

namespace Patternle

/-- Operation kinds for ALTERNATING_OPS (`'add' | 'subtract' | 'multiply'`). -/
inductive OpKind where
  | add
  | subtract
  | multiply
deriving DecidableEq, Repr

/-- One `{ op, value }` entry of `params.operations`. -/
structure Operation where
  op : OpKind
  value : ℤ
deriving DecidableEq, Repr

/-- `RuleProgramParams` from types.ts: a sparse record whose recognized fields
depend on the rule kind; absent fields are `none`. -/
structure RuleProgramParams where
  difference : Option ℤ := none
  ratio : Option ℤ := none
  initialDiff : Option ℤ := none
  diffIncrement : Option ℤ := none
  secondDifference : Option ℤ := none
  operations : Option (List Operation) := none
  oddMultiplier : Option ℤ := none
  oddAddend : Option ℤ := none
  evenMultiplier : Option ℤ := none
  evenAddend : Option ℤ := none
  a : Option ℤ := none
  b : Option ℤ := none
  c : Option ℤ := none
  cubicA : Option ℤ := none
  cubicB : Option ℤ := none
  cubicC : Option ℤ := none
  cubicD : Option ℤ := none
  multiplier : Option ℤ := none
  addend : Option ℤ := none
  prevMultiplier : Option ℤ := none
  prev2Multiplier : Option ℤ := none
  digitSumMultiplier : Option ℤ := none
  digitSumAddend : Option ℤ := none
  multiplyFactor : Option ℤ := none
  addFactor : Option ℤ := none
  base : Option ℤ := none
  exponent : Option ℕ := none
  powerType : Option String := none
  startingValues : Option (List ℤ) := none
deriving DecidableEq, Repr

/-- `{ sequence, nextValue }` produced by the evaluator. -/
structure GeneratedSequence where
  sequence : List ℤ
  nextValue : ℤ
deriving DecidableEq, Repr, Inhabited

/-- `digitSum` from evaluators.ts: the sum of the decimal digits of `|n|`. -/
def digitSum (n : ℤ) : ℤ :=
  ((Nat.digits 10 n.natAbs).sum : ℤ)

/-- The last three elements of a sequence-so-far, in the order
(`prev`, `prev2`, `prev3`), with missing older entries defaulting to 0 —
exactly the three reads at the top of `evaluateNextValue`. -/
def lastThree (sequence : List ℤ) : ℤ × ℤ × ℤ :=
  (sequence.getLastD 0,
   if 2 ≤ sequence.length then sequence.getD (sequence.length - 2) 0 else 0,
   if 3 ≤ sequence.length then sequence.getD (sequence.length - 3) 0 else 0)

/-- `evaluateNextValue` from evaluators.ts: computes the next term of a
sequence under a rule program.  The rule kind is the raw string token of the
TS enum; an unrecognized token hits the `default` branch and throws
(`Except.error`), modelling `throw new Error('Unknown rule type: ...')`.
(In JS, reading `prev` from an empty list yields `undefined`; the engine only
evaluates non-positional rules on non-empty lists, and the default 0 here is
never the value actually used by any positional rule.) -/
def evaluateNextValue (sequence : List ℤ) (ruleType : String)
    (params : RuleProgramParams) (position : ℕ) : Except String ℤ :=
  let prev := sequence.getLastD 0
  let prev2 := if 2 ≤ sequence.length then sequence.getD (sequence.length - 2) 0 else 0
  let prev3 := if 3 ≤ sequence.length then sequence.getD (sequence.length - 3) 0 else 0
  match ruleType with
  | "ARITHMETIC_SEQUENCE" =>
      let diff := params.difference.getD 0
      .ok (prev + diff)
  | "GEOMETRIC_SEQUENCE" =>
      let ratio := params.ratio.getD 1
      .ok (prev * ratio)
  | "LINEAR_DIFF" =>
      let initialDiff := params.initialDiff.getD 1
      let diffIncrement := params.diffIncrement.getD 1
      let n := sequence.length
      let nextDiff := initialDiff + ((n : ℤ) - 1) * diffIncrement
      .ok (prev + nextDiff)
  | "SECOND_ORDER_CONSTANT" =>
      let secondDiff := params.secondDifference.getD 2
      if sequence.length < 2 then
        .ok (prev + secondDiff)
      else
        let lastDiff := prev - prev2
        let nextDiff := lastDiff + secondDiff
        .ok (prev + nextDiff)
  | "ALTERNATING_OPS" =>
      let operations := params.operations.getD [⟨.add, 2⟩, ⟨.subtract, 1⟩]
      let opIndex := (sequence.length - 1) % operations.length
      let operation := operations.getD opIndex ⟨.add, 0⟩
      match operation.op with
      | .add => .ok (prev + operation.value)
      | .subtract => .ok (prev - operation.value)
      | .multiply => .ok (prev * operation.value)
  | "ALTERNATING_PARITY" =>
      if position % 2 = 1 then
        .ok (prev * params.oddMultiplier.getD 1 + params.oddAddend.getD 1)
      else
        .ok (prev * params.evenMultiplier.getD 1 + params.evenAddend.getD 2)
  | "POSITIONAL_FORMULA" =>
      .ok (params.a.getD 0 * position * position + params.b.getD 1 * position
            + params.c.getD 0)
  | "CUBIC_POSITIONAL" =>
      .ok (params.cubicA.getD 0 * position ^ 3 + params.cubicB.getD 0 * position ^ 2
            + params.cubicC.getD 1 * position + params.cubicD.getD 0)
  | "RECURSIVE_LINEAR" =>
      .ok (params.multiplier.getD 2 * prev + params.addend.getD 0)
  | "FIBONACCI_LIKE" =>
      .ok (params.prevMultiplier.getD 1 * prev + params.prev2Multiplier.getD 1 * prev2)
  | "TRIBONACCI_LIKE" =>
      .ok (prev + prev2 + prev3)
  | "DIGIT_SUM_BASED" =>
      .ok (prev + (digitSum prev * params.digitSumMultiplier.getD 1
            + params.digitSumAddend.getD 0))
  | "MULTIPLY_THEN_ADD" =>
      .ok (prev * params.multiplyFactor.getD 2 + params.addFactor.getD 1)
  | "POWER_BASED" =>
      let base := params.base.getD 2
      let exp := params.exponent.getD 2
      match params.powerType.getD "n_squared_plus" with
      | "n_to_k" => .ok ((position : ℤ) ^ exp)
      | "k_to_n" => .ok (base ^ position)
      | "n_squared_plus" => .ok ((position : ℤ) ^ 2 + base)
      | _ => .ok ((position : ℤ) ^ 2)
  | _ => .error ("Unknown rule type: " ++ ruleType)

/-- The three rule kinds that generate values purely from position. -/
def positionalKinds : List String :=
  ["POSITIONAL_FORMULA", "CUBIC_POSITIONAL", "POWER_BASED"]

/-- The positional loop of `generateSequence`: `for i = 1..n` push
`evaluateNextValue(sequence, ..., i)` onto the growing sequence. -/
def buildPositional (ruleType : String) (params : RuleProgramParams) :
    ℕ → Except String (List ℤ)
  | 0 => .ok []
  | n + 1 => do
      let s ← buildPositional ruleType params n
      let v ← evaluateNextValue s ruleType params (n + 1)
      pure (s ++ [v])

/-- The `while (sequence.length < length)` loop of `generateSequence`:
each pass appends `evaluateNextValue(sequence, ..., sequence.length + 1)`.
The fuel argument `k` is the number of remaining iterations
(`length - sequence.length`, re-established at each step). -/
def extendLoop (ruleType : String) (params : RuleProgramParams) :
    ℕ → List ℤ → Except String (List ℤ)
  | 0, s => .ok s
  | k + 1, s => do
      let v ← evaluateNextValue s ruleType params (s.length + 1)
      extendLoop ruleType params k (s ++ [v])

/-- `generateSequence` from evaluators.ts: positional kinds iterate positions
`1..length`; all other kinds seed the sequence from
`startingValues ?? params.startingValues ?? [1]` (truncated to `length`) and
repeatedly apply `evaluateNextValue`; the continuation is one more
application at `length + 1`. -/
def generateSequence (ruleType : String) (params : RuleProgramParams)
    (length : ℕ) (startingValues : Option (List ℤ) := none) :
    Except String GeneratedSequence := do
  if ruleType ∈ positionalKinds then
    let sequence ← buildPositional ruleType params length
    let nextValue ← evaluateNextValue sequence ruleType params (length + 1)
    pure ⟨sequence, nextValue⟩
  else
    let startVals := startingValues.getD (params.startingValues.getD [1])
    let seed := startVals.take length
    let sequence ← extendLoop ruleType params (length - seed.length) seed
    let nextValue ← evaluateNextValue sequence ruleType params (length + 1)
    pure ⟨sequence, nextValue⟩

/-- The varied starting values used by `generateMultipleSequences` for output
index `i`: each base value `v` at array index `idx` becomes
`v + i * (idx + 1) * 2`. -/
def variedStart (baseStartValues : List ℤ) (i : ℕ) : List ℤ :=
  baseStartValues.enum.map (fun p => p.2 + (i : ℤ) * ((p.1 : ℤ) + 1) * 2)

/-- `generateMultipleSequences` from evaluators.ts: produces `count` sequences
under one rule.  Positional kinds vary the constant term (`c` by `+3·i`,
`cubicD` by `+5·i`), POWER_BASED varies `base` (`+2·i` in `n_squared_plus`
mode, `+1·i` otherwise), and every other kind varies the starting values via
`variedStart`. -/
def generateMultipleSequences (ruleType : String) (params : RuleProgramParams)
    (count length : ℕ) : Except String (List GeneratedSequence) :=
  if ruleType = "POSITIONAL_FORMULA" ∨ ruleType = "CUBIC_POSITIONAL" then
    (List.range count).mapM (fun i =>
      let modifiedParams :=
        if ruleType = "POSITIONAL_FORMULA" then
          { params with c := some (params.c.getD 0 + (i : ℤ) * 3) }
        else
          { params with cubicD := some (params.cubicD.getD 0 + (i : ℤ) * 5) }
      generateSequence ruleType modifiedParams length)
  else if ruleType = "POWER_BASED" then
    (List.range count).mapM (fun i =>
      let modifiedParams :=
        if params.powerType = some "n_squared_plus" then
          { params with base := some (params.base.getD 0 + (i : ℤ) * 2) }
        else
          { params with base := some (params.base.getD 2 + (i : ℤ)) }
      generateSequence ruleType modifiedParams length)
  else
    let baseStartValues := params.startingValues.getD [1]
    (List.range count).mapM (fun i =>
      generateSequence ruleType params length (some (variedStart baseStartValues i)))

/-! ### Validator (validation.ts) -/

/-- JS `Math.round`: round half toward positive infinity. -/
def jsRound (q : ℚ) : ℤ := ⌊q + 1 / 2⌋

/-- JS `Number.isInteger` on an exact rational. -/
def isJsInteger (q : ℚ) : Bool := q.den = 1

/-- `MIN_VALUE` from validation.ts. -/
def MIN_VALUE : ℚ := -999

/-- `MAX_VALUE` from validation.ts. -/
def MAX_VALUE : ℚ := 999

/-- `MIN_SEQUENCE_LENGTH` from validation.ts. -/
def MIN_SEQUENCE_LENGTH : ℕ := 4

/-- `ValidationResult` from validation.ts. -/
structure ValidationResult where
  valid : Bool
  errors : List String
  warnings : List String
deriving DecidableEq, Repr

/-- `PuzzleData` from types.ts, as seen by the validator: terms and answers
are arbitrary JS numbers (`ℚ` here); the rule kind is its string token. -/
structure PuzzleData where
  ruleProgramType : String
  ruleProgramParams : RuleProgramParams
  tags : List String
  sequences : List (List ℚ)
  answers : List ℚ
  primarySequenceIndex : ℕ
  hints : List String
  explanation : String
deriving DecidableEq, Repr

/-- The inner term loop of `validateStructure` for sequence `i` (0-based):
per term, a not-an-integer error and an out-of-bounds error, collected in
source order.  `j` is the 0-based index of the first term of `s`. -/
def termErrors (i : ℕ) : ℕ → List ℚ → List String
  | _, [] => []
  | j, v :: rest =>
    (if isJsInteger v then []
     else ["Sequence " ++ toString (i + 1) ++ ", term " ++ toString (j + 1)
            ++ " is not an integer: " ++ toString v])
    ++ (if v < MIN_VALUE ∨ MAX_VALUE < v then
          ["Sequence " ++ toString (i + 1) ++ ", term " ++ toString (j + 1)
            ++ " is out of bounds: " ++ toString v]
        else [])
    ++ termErrors i (j + 1) rest

/-- The outer sequence loop of `validateStructure`: for each sequence, a
too-short error followed by its term errors. -/
def sequenceErrors : ℕ → List (List ℚ) → List String
  | _, [] => []
  | i, seq :: rest =>
    (if seq.length < MIN_SEQUENCE_LENGTH then
       ["Sequence " ++ toString (i + 1) ++ " has fewer than "
         ++ toString MIN_SEQUENCE_LENGTH ++ " terms"]
     else [])
    ++ termErrors i 0 seq ++ sequenceErrors (i + 1) rest

/-- The answer loop of `validateStructure`. -/
def answerErrors : ℕ → List ℚ → List String
  | _, [] => []
  | i, ans :: rest =>
    (if isJsInteger ans then []
     else ["Answer " ++ toString (i + 1) ++ " is not an integer: " ++ toString ans])
    ++ (if ans < MIN_VALUE ∨ MAX_VALUE < ans then
          ["Answer " ++ toString (i + 1) ++ " is out of bounds: " ++ toString ans]
        else [])
    ++ answerErrors (i + 1) rest

/-- `validateStructure` from validation.ts: bounds, lengths and integer
constraints, with every violation collected (no short-circuiting). -/
def validateStructure (puzzle : PuzzleData) : ValidationResult :=
  let seqErrs :=
    if puzzle.sequences.length = 0 then ["No sequences provided"]
    else sequenceErrors 0 puzzle.sequences
  let ansErrs :=
    if puzzle.answers.length ≠ puzzle.sequences.length then
      ["Answers count does not match sequences count"]
    else answerErrors 0 puzzle.answers
  let hintErrs := if puzzle.hints.length ≠ 2 then ["Exactly 2 hints are required"] else []
  let explErrs :=
    if puzzle.explanation.length < 10 then ["Explanation is too short or missing"] else []
  let errors := seqErrs ++ ansErrs ++ hintErrs ++ explErrs
  { valid := errors.isEmpty, errors := errors, warnings := [] }

/-- Result of `fitQuadratic`.  `error` is the mean absolute fit error;
`none` models the `Infinity` of the singular-matrix fallback. -/
structure QuadFit where
  coefficients : ℚ × ℚ × ℚ
  nextValue : ℤ
  error : Option ℚ
deriving DecidableEq, Repr

/-- `fitQuadratic` from validation.ts: least-squares fit of `a·x² + b·x + c`
to the 1-indexed sequence via Cramer's rule on the power-sum normal
equations; if `|det| < 1e-10` fall back to a linear fit through the
endpoints with infinite reported error. -/
def fitQuadratic (sequence : List ℚ) : QuadFit :=
  let n := sequence.length
  let sumX0 : ℚ := n
  let sumX1 : ℚ := ((List.range n).map (fun i => ((i : ℚ) + 1))).sum
  let sumX2 : ℚ := ((List.range n).map (fun i => ((i : ℚ) + 1) ^ 2)).sum
  let sumX3 : ℚ := ((List.range n).map (fun i => ((i : ℚ) + 1) ^ 3)).sum
  let sumX4 : ℚ := ((List.range n).map (fun i => ((i : ℚ) + 1) ^ 4)).sum
  let sumY : ℚ := sequence.sum
  let sumX1Y : ℚ := (sequence.enum.map (fun p => ((p.1 : ℚ) + 1) * p.2)).sum
  let sumX2Y : ℚ := (sequence.enum.map (fun p => ((p.1 : ℚ) + 1) ^ 2 * p.2)).sum
  let det := sumX0 * (sumX2 * sumX4 - sumX3 * sumX3)
    - sumX1 * (sumX1 * sumX4 - sumX3 * sumX2)
    + sumX2 * (sumX1 * sumX3 - sumX2 * sumX2)
  if |det| < 1 / 10000000000 then
    let linearSlope := (sequence.getLastD 0 - sequence.headD 0) / ((n : ℚ) - 1)
    let linearIntercept := sequence.headD 0 - linearSlope
    { coefficients := (0, linearSlope, linearIntercept),
      nextValue := jsRound (sequence.headD 0 + linearSlope * n),
      error := none }
  else
    let detC := sumY * (sumX2 * sumX4 - sumX3 * sumX3)
      - sumX1 * (sumX1Y * sumX4 - sumX3 * sumX2Y)
      + sumX2 * (sumX1Y * sumX3 - sumX2 * sumX2Y)
    let detB := sumX0 * (sumX1Y * sumX4 - sumX3 * sumX2Y)
      - sumY * (sumX1 * sumX4 - sumX3 * sumX2)
      + sumX2 * (sumX1 * sumX2Y - sumX1Y * sumX2)
    let detA := sumX0 * (sumX2 * sumX2Y - sumX1Y * sumX3)
      - sumX1 * (sumX1 * sumX2Y - sumX1Y * sumX2)
      + sumY * (sumX1 * sumX3 - sumX2 * sumX2)
    let c := detC / det
    let b := detB / det
    let a := detA / det
    let fitErr :=
      (sequence.enum.map
        (fun p => |p.2 - (a * ((p.1 : ℚ) + 1) ^ 2 + b * ((p.1 : ℚ) + 1) + c)|)).sum
    let nextX : ℚ := (n : ℚ) + 1
    { coefficients := (a, b, c),
      nextValue := jsRound (a * nextX ^ 2 + b * nextX + c),
      error := some (fitErr / n) }

/-- Result of `checkConstantDifference` (`difference`/`nextValue` are `null`
when no constant difference is found). -/
structure DiffCheck where
  isConstant : Bool
  difference : Option ℚ
  nextValue : Option ℚ
deriving DecidableEq, Repr

/-- The consecutive differences `sequence[i] - sequence[i-1]`. -/
def consecutiveDifferences (sequence : List ℚ) : List ℚ :=
  (List.range (sequence.length - 1)).map
    (fun i => sequence.getD (i + 1) 0 - sequence.getD i 0)

/-- `checkConstantDifference` from validation.ts. -/
def checkConstantDifference (sequence : List ℚ) : DiffCheck :=
  if sequence.length < 2 then ⟨false, none, none⟩
  else
    let differences := consecutiveDifferences sequence
    if differences.all (fun d => d = differences.headD 0) then
      ⟨true, some (differences.headD 0),
        some (sequence.getLastD 0 + differences.headD 0)⟩
    else ⟨false, none, none⟩

/-- Result of `checkConstantRatio` (`ratio` is the rounded integer ratio). -/
structure RatioCheck where
  isConstant : Bool
  ratio : Option ℤ
  nextValue : Option ℚ
deriving DecidableEq, Repr

/-- The consecutive ratios `sequence[i] / sequence[i-1]`. -/
def consecutiveRatios (sequence : List ℚ) : List ℚ :=
  (List.range (sequence.length - 1)).map
    (fun i => sequence.getD (i + 1) 0 / sequence.getD i 0)

/-- `checkConstantRatio` from validation.ts: defined only when no term is 0;
all consecutive ratios must agree within `1e-4`, and the rounded common
ratio must satisfy `Number.isInteger` (which every rounded finite number
does — the guard is kept verbatim). -/
def checkConstantRatio (sequence : List ℚ) : RatioCheck :=
  if sequence.length < 2 ∨ sequence.any (fun v => v = 0) then ⟨false, none, none⟩
  else
    let ratios := consecutiveRatios sequence
    let allSame := ratios.all (fun r => |r - ratios.headD 0| < 1 / 10000)
    if allSame ∧ isJsInteger ((jsRound (ratios.headD 0) : ℤ) : ℚ) then
      let ratio := jsRound (ratios.headD 0)
      ⟨true, some ratio, some (sequence.getLastD 0 * (ratio : ℚ))⟩
    else ⟨false, none, none⟩

/-- Result of `checkAlternatingPattern`; `pattern` is `(addValue, subtractValue)`. -/
structure AlternatingCheck where
  isAlternating : Bool
  pattern : Option (ℚ × ℚ)
  nextValue : Option ℚ
deriving DecidableEq, Repr

/-- `checkAlternatingPattern` from validation.ts: needs ≥ 4 terms; the
even-indexed and odd-indexed consecutive differences must each be internally
constant and the two constants must differ. -/
def checkAlternatingPattern (sequence : List ℚ) : AlternatingCheck :=
  if sequence.length < 4 then ⟨false, none, none⟩
  else
    let differences := consecutiveDifferences sequence
    let evenDiffs := (differences.enum.filter (fun p => p.1 % 2 = 0)).map (fun p => p.2)
    let oddDiffs := (differences.enum.filter (fun p => p.1 % 2 = 1)).map (fun p => p.2)
    let evenAllSame := evenDiffs.all (fun d => d = evenDiffs.headD 0)
    let oddAllSame := oddDiffs.all (fun d => d = oddDiffs.headD 0)
    if evenAllSame ∧ oddAllSame ∧ evenDiffs.headD 0 ≠ oddDiffs.headD 0 then
      let nextDiffIndex := differences.length
      let nextDiff := if nextDiffIndex % 2 = 0 then evenDiffs.headD 0 else oddDiffs.headD 0
      ⟨true, some (max (evenDiffs.headD 0) (oddDiffs.headD 0),
                   min (evenDiffs.headD 0) (oddDiffs.headD 0)),
        some (sequence.getLastD 0 + nextDiff)⟩
    else ⟨false, none, none⟩

/-- `validateDifficulty` from validation.ts: warnings (never errors) when the
primary sequence has a constant difference or constant ratio that predicts
the stated answer. -/
def validateDifficulty (puzzle : PuzzleData) : ValidationResult :=
  let primarySeq := puzzle.sequences.getD puzzle.primarySequenceIndex []
  let primaryAnswer := puzzle.answers.getD puzzle.primarySequenceIndex 0
  let constDiff := checkConstantDifference primarySeq
  let w1 :=
    if constDiff.isConstant ∧ constDiff.nextValue = some primaryAnswer then
      ["Primary sequence has constant difference - may be too easy"]
    else []
  let constRatio := checkConstantRatio primarySeq
  let w2 :=
    if constRatio.isConstant ∧ constRatio.nextValue = some primaryAnswer then
      ["Primary sequence has constant ratio - may be too easy"]
    else []
  let errors : List String := []
  { valid := errors.isEmpty, errors := errors, warnings := w1 ++ w2 }

/-- The four competing-method tags pushed into the `alternatives` list of
`validateAmbiguity` (the TS code uses exactly these four string literals). -/
inductive AltMethod where
  | quadratic
  | constant_diff
  | constant_ratio
  | alternating
deriving DecidableEq, Repr

/-- The string literal of an alternative method tag. -/
def AltMethod.name : AltMethod → String
  | .quadratic => "quadratic"
  | .constant_diff => "constant_diff"
  | .constant_ratio => "constant_ratio"
  | .alternating => "alternating"

/-- One `{ method, value }` entry of the `alternatives` list. -/
structure Alt where
  method : AltMethod
  value : ℚ
deriving DecidableEq, Repr

/-- JS `quadFit.error < 0.5`: false for the singular fallback's `Infinity`. -/
def quadErrorBelowHalf : Option ℚ → Bool
  | none => false
  | some e => e < 1 / 2

/-- The `alternatives` list built by `validateAmbiguity` from the primary
sequence and the intended answer: each detector contributes an entry exactly
when it is confident and its prediction differs from the intended answer. -/
def ambiguityAlternatives (primarySeq : List ℚ) (intendedAnswer : ℚ) : List Alt :=
  let quadFit := fitQuadratic primarySeq
  let constDiff := checkConstantDifference primarySeq
  let constRatio := checkConstantRatio primarySeq
  let altPattern := checkAlternatingPattern primarySeq
  (if quadErrorBelowHalf quadFit.error ∧ (quadFit.nextValue : ℚ) ≠ intendedAnswer then
     [⟨.quadratic, (quadFit.nextValue : ℚ)⟩]
   else [])
  ++ (if constDiff.isConstant ∧ constDiff.nextValue ≠ some intendedAnswer then
        [⟨.constant_diff, constDiff.nextValue.getD 0⟩]
      else [])
  ++ (if constRatio.isConstant ∧ constRatio.nextValue ≠ some intendedAnswer then
        [⟨.constant_ratio, constRatio.nextValue.getD 0⟩]
      else [])
  ++ (if altPattern.isAlternating ∧ altPattern.nextValue ≠ some intendedAnswer then
        [⟨.alternating, altPattern.nextValue.getD 0⟩]
      else [])

/-- The `fitsAllSequences` re-check of `validateAmbiguity`: re-run the same
detector on every sequence/answer pair of the puzzle and require it to
reproduce that pair's stated answer (the quadratic method within 0.5).
The early `break` of the source loop only short-circuits the same
conjunction this `all` computes. -/
def altFitsAt (sequences : List (List ℚ)) (answers : List ℚ)
    (alt : Alt) (i : ℕ) : Bool :=
  let seq := sequences.getD i []
  let actualAnswer := answers.getD i 0
  match alt.method with
  | .quadratic =>
      decide (|((fitQuadratic seq).nextValue : ℚ) - actualAnswer| ≤ 1 / 2)
  | .constant_diff =>
      let check := checkConstantDifference seq
      check.isConstant && decide (check.nextValue = some actualAnswer)
  | .constant_ratio =>
      let check := checkConstantRatio seq
      check.isConstant && decide (check.nextValue = some actualAnswer)
  | .alternating =>
      let check := checkAlternatingPattern seq
      check.isAlternating && decide (check.nextValue = some actualAnswer)

/-- `fitsAllSequences`: the loop body `altFitsAt` at every index. -/
def altFitsAllSequences (sequences : List (List ℚ)) (answers : List ℚ)
    (alt : Alt) : Bool :=
  (List.range sequences.length).all (altFitsAt sequences answers alt)

/-- The error message pushed for an alternative that fits all sequences. -/
def ambiguityErrorMsg (intendedAnswer : ℚ) (alt : Alt) : String :=
  "Ambiguous: " ++ alt.method.name ++ " pattern predicts " ++ toString alt.value
    ++ " instead of " ++ toString intendedAnswer ++ " and fits all sequences"

/-- The warning message pushed for an alternative that is disambiguated. -/
def ambiguityWarningMsg (alt : Alt) : String :=
  "Alternative " ++ alt.method.name ++ " pattern predicts " ++ toString alt.value
    ++ " but is disambiguated by other sequences"

/-- `validateAmbiguity` from validation.ts: collects competing predictions on
the primary sequence; a competitor that fits every sequence/answer pair is
an error, one broken by some alternate sequence is a warning. -/
def validateAmbiguity (puzzle : PuzzleData) : ValidationResult :=
  let primarySeq := puzzle.sequences.getD puzzle.primarySequenceIndex []
  let intendedAnswer := puzzle.answers.getD puzzle.primarySequenceIndex 0
  let alternatives := ambiguityAlternatives primarySeq intendedAnswer
  let errors :=
    (alternatives.filter (fun alt =>
      altFitsAllSequences puzzle.sequences puzzle.answers alt)).map
      (ambiguityErrorMsg intendedAnswer)
  let warnings :=
    (alternatives.filter (fun alt =>
      !(altFitsAllSequences puzzle.sequences puzzle.answers alt))).map
      ambiguityWarningMsg
  { valid := errors.isEmpty, errors := errors, warnings := warnings }

/-- `validatePuzzle` from validation.ts: structural check first; difficulty
and ambiguity only when it passes; `valid` iff the merged error list is
empty. -/
def validatePuzzle (puzzle : PuzzleData) : ValidationResult :=
  let structureResult := validateStructure puzzle
  let rest : List String × List String :=
    if structureResult.valid then
      let difficultyResult := validateDifficulty puzzle
      let ambiguityResult := validateAmbiguity puzzle
      (difficultyResult.errors ++ ambiguityResult.errors,
       difficultyResult.warnings ++ ambiguityResult.warnings)
    else ([], [])
  let allErrors := structureResult.errors ++ rest.1
  let allWarnings := structureResult.warnings ++ rest.2
  { valid := allErrors.isEmpty, errors := allErrors, warnings := allWarnings }

/-! ### Generation orchestrator -/

/-- `SEQUENCE_LENGTH`: number of visible terms. -/
def SEQUENCE_LENGTH : ℕ := 5

/-- `NUM_SEQUENCES`: total sequences per puzzle. -/
def NUM_SEQUENCES : ℕ := 5

/-- `MAX_GENERATION_ATTEMPTS`: the hard attempt ceiling. -/
def MAX_GENERATION_ATTEMPTS : ℕ := 20

/-- `FALLBACK_PUZZLES`: the fixed hand-authored catalog used when generation
fails, verbatim from the orchestrator module. -/
def FALLBACK_PUZZLES : List PuzzleData :=
  [{ ruleProgramType := "SECOND_ORDER_CONSTANT"
     ruleProgramParams := { secondDifference := some 3, startingValues := some [2, 5] }
     tags := ["DIFFERENCES", "SECOND_ORDER", "INCREASING"]
     sequences := [[2, 5, 11, 20, 32], [1, 4, 10, 19, 31], [3, 7, 14, 24, 37],
                   [0, 3, 9, 18, 30], [5, 9, 16, 26, 39]]
     answers := [47, 46, 53, 45, 55]
     primarySequenceIndex := 0
     hints := ["This pattern only uses addition, but the amount added changes each time.",
               "The amount you add increases by the same number each step."]
     explanation := "Each term adds an increasing amount. The differences are 3, 6, 9, 12, 15... (increasing by 3 each time). Next difference is 15, so 32 + 15 = 47." },
   { ruleProgramType := "FIBONACCI_LIKE"
     ruleProgramParams :=
       { prevMultiplier := some 1, prev2Multiplier := some 2, startingValues := some [1, 3] }
     tags := ["RECURSIVE", "FIBONACCI", "INCREASING"]
     sequences := [[1, 3, 5, 11, 21], [2, 4, 8, 16, 32], [1, 2, 4, 7, 13],
                   [3, 5, 11, 21, 43], [2, 3, 7, 13, 27]]
     answers := [43, 64, 24, 85, 53]
     primarySequenceIndex := 0
     hints := ["This uses addition and multiplication. Each number is calculated from the two before it.",
               "Try: current number + (2 × the number before that)."]
     explanation := "Each term equals the previous term plus twice the term before that: next = prev + 2×prev2. So 21 + (2×11) = 21 + 22 = 43." },
   { ruleProgramType := "ALTERNATING_OPS"
     ruleProgramParams :=
       { operations := some [⟨.multiply, 2⟩, ⟨.add, 3⟩], startingValues := some [1] }
     tags := ["ALTERNATING", "MIXED_SIGNS"]
     sequences := [[1, 2, 5, 10, 13], [2, 4, 7, 14, 17], [3, 6, 9, 18, 21],
                   [4, 8, 11, 22, 25], [5, 10, 13, 26, 29]]
     answers := [26, 34, 42, 50, 58]
     primarySequenceIndex := 0
     hints := ["This uses both multiplication and addition, alternating between them.",
               "First multiply by 2, then add 3, then multiply by 2, then add 3..."]
     explanation := "The sequence alternates: ×2, +3, ×2, +3... So 13 × 2 = 26." },
   { ruleProgramType := "POSITIONAL_FORMULA"
     ruleProgramParams := { a := some 1, b := some 2, c := some (-1) }
     tags := ["POLYNOMIAL", "POSITIONAL", "INCREASING"]
     sequences := [[2, 7, 14, 23, 34], [5, 10, 17, 26, 37], [8, 13, 20, 29, 40],
                   [11, 16, 23, 32, 43], [14, 19, 26, 35, 46]]
     answers := [47, 50, 53, 56, 59]
     primarySequenceIndex := 0
     hints := ["Each term is calculated using its position (1st, 2nd, 3rd...). Uses multiplication and addition.",
               "The formula involves squaring the position number."]
     explanation := "The nth term equals n² + 2n - 1. For position 6: 36 + 12 - 1 = 47." },
   { ruleProgramType := "LINEAR_DIFF"
     ruleProgramParams :=
       { initialDiff := some 5, diffIncrement := some 4, startingValues := some [3] }
     tags := ["DIFFERENCES", "INCREASING"]
     sequences := [[3, 8, 17, 30, 47], [1, 6, 15, 28, 45], [5, 10, 19, 32, 49],
                   [2, 7, 16, 29, 46], [7, 12, 21, 34, 51]]
     answers := [68, 66, 70, 67, 72]
     primarySequenceIndex := 0
     hints := ["This only uses addition. Calculate what you add each time to get to the next number.",
               "The differences between terms are: 5, 9, 13, 17... See the pattern?"]
     explanation := "The differences are 5, 9, 13, 17, 21 (increasing by 4 each time). Next difference is 21, so 47 + 21 = 68." }]

/-- The shape of a proposal returned by the external AI source
(`PuzzleGenerationResponse`). -/
structure AIResponse where
  ruleProgramType : String
  ruleProgramParams : RuleProgramParams
  tags : List String
  hints : List String
  explanation : String
  suggestedStartingValues : Option (List (List ℤ)) := none
deriving DecidableEq, Repr

/-- `needsStartingValues`: every kind outside the three positional ones. -/
def needsStartingValues (ruleType : String) : Bool :=
  !(ruleType ∈ positionalKinds)

/-- The `while (startingValueSets.length < NUM_SEQUENCES)` padding loop of
`buildPuzzleFromAIResponse`: each pass appends the base values varied by
`(sets.length + 1) * (idx + 1) * 2`.  Fuel `k` counts the remaining
iterations (`NUM_SEQUENCES - sets.length`). -/
def padStartingValueSets (baseValues : List ℤ) :
    ℕ → List (List ℤ) → List (List ℤ)
  | 0, sets => sets
  | k + 1, sets =>
      padStartingValueSets baseValues k
        (sets ++ [baseValues.enum.map
          (fun p => p.2 + ((sets.length : ℤ) + 1) * ((p.1 : ℤ) + 1) * 2)])

/-- `buildPuzzleFromAIResponse`: expands a proposal into a full puzzle via
the rule engine.  Kinds needing starting values are regenerated once per
sequence with their own (suggested or padded) seed set; positional kinds use
the single `generateMultipleSequences` call.  Any evaluator error
(e.g. `UnknownRule`) propagates as `Except.error`. -/
def buildPuzzleFromAIResponse (response : AIResponse) : Except String PuzzleData := do
  let sets0 := response.suggestedStartingValues.getD []
  let startingValueSets :=
    if sets0.length < NUM_SEQUENCES then
      padStartingValueSets (response.ruleProgramParams.startingValues.getD [1])
        (NUM_SEQUENCES - sets0.length) sets0
    else sets0
  let generatedSequences ← generateMultipleSequences response.ruleProgramType
    response.ruleProgramParams NUM_SEQUENCES SEQUENCE_LENGTH
  if needsStartingValues response.ruleProgramType then
    let results ← (List.range NUM_SEQUENCES).mapM (fun i => do
      let startVals := startingValueSets.getD i (startingValueSets.headD [])
      let paramsWithStart :=
        { response.ruleProgramParams with startingValues := some startVals }
      let generated ← generateMultipleSequences response.ruleProgramType
        paramsWithStart 1 SEQUENCE_LENGTH
      pure (generated.headD default))
    pure { ruleProgramType := response.ruleProgramType
           ruleProgramParams := response.ruleProgramParams
           tags := response.tags
           sequences := results.map (fun g => g.sequence.map (fun z => (z : ℚ)))
           answers := results.map (fun g => (g.nextValue : ℚ))
           primarySequenceIndex := 0
           hints := response.hints
           explanation := response.explanation }
  else
    pure { ruleProgramType := response.ruleProgramType
           ruleProgramParams := response.ruleProgramParams
           tags := response.tags
           sequences := generatedSequences.map (fun g => g.sequence.map (fun z => (z : ℚ)))
           answers := generatedSequences.map (fun g => (g.nextValue : ℚ))
           primarySequenceIndex := 0
           hints := response.hints
           explanation := response.explanation }

/-- Wrap an integer to a signed 32-bit value, as JS bitwise operators do. -/
def toInt32 (x : ℤ) : ℤ := (x + 2 ^ 31) % 2 ^ 32 - 2 ^ 31

/-- `hashDateToIndex`: per character, `hash = (hash << 5) - hash + charCode`
followed by `hash = hash & hash` (the JS idiom forcing a signed 32-bit
value); finally `Math.abs(hash) % max`. -/
def hashDateToIndex (dateKey : String) (max : ℕ) : ℕ :=
  let h := dateKey.data.foldl
    (fun hash ch => toInt32 (toInt32 (hash * 32) - hash + (ch.toNat : ℤ))) 0
  h.natAbs % max

/-- The default used (but never reached, as the index is reduced modulo the
catalog length) when indexing into `FALLBACK_PUZZLES`. -/
def emptyPuzzle : PuzzleData :=
  { ruleProgramType := "", ruleProgramParams := {}, tags := [], sequences := [],
    answers := [], primarySequenceIndex := 0, hints := [], explanation := "" }

/-- The fallback puzzle deterministically selected for a date. -/
def fallbackFor (dateKey : String) : PuzzleData :=
  FALLBACK_PUZZLES.getD (hashDateToIndex dateKey FALLBACK_PUZZLES.length) emptyPuzzle

/-- `generatePuzzle`: the retry orchestrator.  The external proposal source
is an oracle indexed by attempt number, returning a proposal or a
transport/parse failure; any failure of the propose → build → validate
pipeline (the `try/catch` plus the `!validation.valid` branch) recurses with
`attempt + 1`; at `attempt ≥ MAX_GENERATION_ATTEMPTS` the date-hashed
fallback is returned with `isFallback = true`. -/
def generatePuzzle (propose : ℕ → Except String AIResponse) (dateKey : String)
    (attempt : ℕ := 0) : PuzzleData × Bool :=
  if MAX_GENERATION_ATTEMPTS ≤ attempt then
    (fallbackFor dateKey, true)
  else
    match (propose attempt).bind buildPuzzleFromAIResponse with
    | .error _ => generatePuzzle propose dateKey (attempt + 1)
    | .ok puzzle =>
        if (validatePuzzle puzzle).valid then (puzzle, false)
        else generatePuzzle propose dateKey (attempt + 1)
termination_by MAX_GENERATION_ATTEMPTS - attempt
decreasing_by all_goals { simp only [MAX_GENERATION_ATTEMPTS] at *; omega }

/-- Fuel-indexed unfolding of `generatePuzzle`, used to compute concrete
runs: `generatePuzzle propose d a = generatePuzzleGo propose d (20 - a) a`. -/
def generatePuzzleGo (propose : ℕ → Except String AIResponse) (dateKey : String) :
    ℕ → ℕ → PuzzleData × Bool
  | 0, _ => (fallbackFor dateKey, true)
  | fuel + 1, attempt =>
    match (propose attempt).bind buildPuzzleFromAIResponse with
    | .error _ => generatePuzzleGo propose dateKey fuel (attempt + 1)
    | .ok puzzle =>
        if (validatePuzzle puzzle).valid then (puzzle, false)
        else generatePuzzleGo propose dateKey fuel (attempt + 1)

/-! ### Spec-side definitions and concrete instances used by the claims -/

/-- The 11 rule kinds that are not positional (they consume starting
values). -/
def nonPositionalKinds : List String :=
  ["ARITHMETIC_SEQUENCE", "GEOMETRIC_SEQUENCE", "LINEAR_DIFF",
   "SECOND_ORDER_CONSTANT", "ALTERNATING_OPS", "ALTERNATING_PARITY",
   "RECURSIVE_LINEAR", "FIBONACCI_LIKE", "TRIBONACCI_LIKE",
   "DIGIT_SUM_BASED", "MULTIPLY_THEN_ADD"]

/-- All 14 tokens of the `RuleProgramType` enum. -/
def knownRuleKinds : List String := nonPositionalKinds ++ positionalKinds

/-- The structural-soundness conditions as the spec enumerates them
(independently of the error-collecting code), for comparison with
`validateStructure`. -/
def structuralOkSpec (p : PuzzleData) : Prop :=
  p.sequences ≠ [] ∧
  (∀ s ∈ p.sequences, MIN_SEQUENCE_LENGTH ≤ s.length) ∧
  (∀ s ∈ p.sequences, ∀ v ∈ s, isJsInteger v = true ∧ MIN_VALUE ≤ v ∧ v ≤ MAX_VALUE) ∧
  p.answers.length = p.sequences.length ∧
  (∀ a ∈ p.answers, isJsInteger a = true ∧ MIN_VALUE ≤ a ∧ a ≤ MAX_VALUE) ∧
  p.hints.length = 2 ∧
  10 ≤ p.explanation.length

/-- The spec's description of the date hash: `hash = hash * 31 + charCode`,
wrapped to signed 32-bit at each step, for comparison with
`hashDateToIndex`. -/
def specRollingHash (dateKey : String) : ℤ :=
  dateKey.data.foldl (fun hash ch => toInt32 (hash * 31 + (ch.toNat : ℤ))) 0

/-- The single-sequence arithmetic puzzle with the deliberately wrong stated
answer 20 (the spec's "ambiguity escalation" scenario). -/
def wrongAnswerPuzzle : PuzzleData :=
  { ruleProgramType := "ARITHMETIC_SEQUENCE"
    ruleProgramParams := { difference := some 3 }
    tags := ["ARITHMETIC"]
    sequences := [[1, 4, 7, 10, 13]]
    answers := [20]
    primarySequenceIndex := 0
    hints := ["Hint 1", "Hint 2"]
    explanation := "Wrong explanation" }

/-- The same single-sequence arithmetic puzzle with the non-integer stated
answer 16.5: the quadratic rival predicts 16 and `|16 - 16.5| = 0.5` is not
`> 0.5`, so the fits-all re-check succeeds even on the primary itself. -/
def halfAnswerPuzzle : PuzzleData :=
  { ruleProgramType := "ARITHMETIC_SEQUENCE"
    ruleProgramParams := { difference := some 3 }
    tags := ["ARITHMETIC"]
    sequences := [[1, 4, 7, 10, 13]]
    answers := [33 / 2]
    primarySequenceIndex := 0
    hints := ["Hint 1", "Hint 2"]
    explanation := "Wrong explanation" }

/-- A puzzle with a 3-term sequence and a mismatched answer count (the
spec's "structural rejection" scenario). -/
def shortPuzzle : PuzzleData :=
  { ruleProgramType := "ARITHMETIC_SEQUENCE"
    ruleProgramParams := { difference := some 1 }
    tags := []
    sequences := [[1, 2, 3]]
    answers := [4, 5]
    primarySequenceIndex := 0
    hints := ["Hint 1", "Hint 2"]
    explanation := "Each term adds one." }

/-- A structurally fine single-sequence puzzle whose stated answer 16 is the
honest continuation. -/
def honestPuzzle : PuzzleData :=
  { ruleProgramType := "ARITHMETIC_SEQUENCE"
    ruleProgramParams := { difference := some 3 }
    tags := ["ARITHMETIC"]
    sequences := [[1, 4, 7, 10, 13]]
    answers := [16]
    primarySequenceIndex := 0
    hints := ["Hint 1", "Hint 2"]
    explanation := "Each term adds three." }

/-- A proposal whose rule-kind token is not one of the 14 enum values
(modelling a corrupted `as RuleProgramType` cast). -/
def bogusResponse : AIResponse :=
  { ruleProgramType := "SOME_CORRUPTED_RULE"
    ruleProgramParams := {}
    tags := []
    hints := ["Hint 1", "Hint 2"]
    explanation := "a long enough explanation" }

/-- A second corrupted proposal, with a different unknown token. -/
def bogusResponse2 : AIResponse :=
  { ruleProgramType := "TOTALLY_BOGUS"
    ruleProgramParams := { startingValues := some [2, 4] }
    tags := ["X"]
    hints := ["Hint 1", "Hint 2"]
    explanation := "another long enough explanation" }

/-!
## Theorems

Helper lemmas first, then one theorem per claim (with witnesses and
counterexamples where required).
-/

theorem generatePuzzle_eq_go (propose : ℕ → Except String AIResponse)
    (dateKey : String) :
    ∀ fuel attempt, MAX_GENERATION_ATTEMPTS - attempt = fuel →
      generatePuzzle propose dateKey attempt = generatePuzzleGo propose dateKey fuel attempt := by
  intro fuel
  induction fuel with
  | zero =>
      intro attempt h
      have hge : MAX_GENERATION_ATTEMPTS ≤ attempt := by omega
      rw [generatePuzzle, generatePuzzleGo, if_pos hge]
  | succ k ih =>
      intro attempt h
      have hlt : ¬ MAX_GENERATION_ATTEMPTS ≤ attempt := by omega
      rw [generatePuzzle, if_neg hlt]
      show (match (propose attempt).bind buildPuzzleFromAIResponse with
        | .error _ => generatePuzzle propose dateKey (attempt + 1)
        | .ok puzzle =>
            if (validatePuzzle puzzle).valid then (puzzle, false)
            else generatePuzzle propose dateKey (attempt + 1)) = _
      rw [generatePuzzleGo]
      cases (propose attempt).bind buildPuzzleFromAIResponse with
      | error e => exact ih (attempt + 1) (by omega)
      | ok puzzle =>
          by_cases hv : (validatePuzzle puzzle).valid
          · simp [hv]
          · simp only [Bool.not_eq_true] at hv
            simp [hv]
            exact ih (attempt + 1) (by omega)

theorem eval_unknown (s : List ℤ) (params : RuleProgramParams) (pos : ℕ)
    (rt : String) (h : rt ∉ knownRuleKinds) :
    evaluateNextValue s rt params pos = .error ("Unknown rule type: " ++ rt) := by
  simp only [knownRuleKinds, nonPositionalKinds, positionalKinds, List.mem_append,
    List.mem_cons, List.mem_singleton, not_or, List.not_mem_nil] at h
  obtain ⟨⟨h1, h2, h3, h4, h5, h6, h7, h8, h9, h10, h11⟩, h12, h13, h14⟩ := h
  simp only [evaluateNextValue]
  split
  all_goals first
    | rfl
    | (exfalso; simp_all)

theorem generateSequence_unknown (rt : String) (h : rt ∉ knownRuleKinds)
    (params : RuleProgramParams) (len : ℕ) (sv : Option (List ℤ)) :
    generateSequence rt params len sv = .error ("Unknown rule type: " ++ rt) := by
  have hpos : rt ∉ positionalKinds := fun hp => h (by
    simp only [knownRuleKinds, List.mem_append]; exact Or.inr hp)
  simp only [generateSequence, hpos, if_neg, ite_false]
  cases hfuel : len - (((sv.getD (params.startingValues.getD [1])).take len).length) with
  | zero => simp only [hfuel, extendLoop, eval_unknown _ _ _ _ h]; rfl
  | succ k => simp only [hfuel, extendLoop, eval_unknown _ _ _ _ h]; rfl

theorem gms_unknown (rt : String) (h : rt ∉ knownRuleKinds)
    (params : RuleProgramParams) (count len : ℕ) (hc : 0 < count) :
    generateMultipleSequences rt params count len = .error ("Unknown rule type: " ++ rt) := by
  have h1 : rt ≠ "POSITIONAL_FORMULA" := by
    intro he; exact h (by simp [knownRuleKinds, positionalKinds, he])
  have h2 : rt ≠ "CUBIC_POSITIONAL" := by
    intro he; exact h (by simp [knownRuleKinds, positionalKinds, he])
  have h3 : rt ≠ "POWER_BASED" := by
    intro he; exact h (by simp [knownRuleKinds, positionalKinds, he])
  simp only [generateMultipleSequences, h1, h2, h3, or_self, if_false, ite_false]
  obtain ⟨n, rfl⟩ : ∃ n, count = n + 1 := ⟨count - 1, by omega⟩
  rw [List.range_succ_eq_map]
  rw [List.mapM_cons]
  rw [generateSequence_unknown rt h]
  rfl

theorem build_unknown (r : AIResponse) (h : r.ruleProgramType ∉ knownRuleKinds) :
    buildPuzzleFromAIResponse r = .error ("Unknown rule type: " ++ r.ruleProgramType) := by
  simp only [buildPuzzleFromAIResponse]
  rw [gms_unknown r.ruleProgramType h _ NUM_SEQUENCES SEQUENCE_LENGTH (by decide)]
  rfl

theorem generatePuzzleGo_allBad (propose : ℕ → Except String AIResponse)
    (dateKey : String)
    (h : ∀ n p, (propose n).bind buildPuzzleFromAIResponse = .ok p →
      (validatePuzzle p).valid = false) :
    ∀ fuel attempt, generatePuzzleGo propose dateKey fuel attempt = (fallbackFor dateKey, true) := by
  intro fuel
  induction fuel with
  | zero => intro attempt; rfl
  | succ k ih =>
      intro attempt
      rw [generatePuzzleGo]
      cases hb : (propose attempt).bind buildPuzzleFromAIResponse with
      | error e => exact ih (attempt + 1)
      | ok puzzle =>
          dsimp only
          rw [h attempt puzzle hb]
          simp only [Bool.false_eq_true, if_false, ite_false]
          exact ih (attempt + 1)

theorem generatePuzzle_allBad (propose : ℕ → Except String AIResponse)
    (dateKey : String)
    (h : ∀ n p, (propose n).bind buildPuzzleFromAIResponse = .ok p →
      (validatePuzzle p).valid = false) (attempt : ℕ) :
    generatePuzzle propose dateKey attempt = (fallbackFor dateKey, true) := by
  rw [generatePuzzle_eq_go propose dateKey (MAX_GENERATION_ATTEMPTS - attempt) attempt rfl]
  exact generatePuzzleGo_allBad propose dateKey h _ attempt

theorem generatePuzzleGo_congr (propose propose' : ℕ → Except String AIResponse)
    (dateKey : String) :
    ∀ fuel attempt, (∀ n, attempt ≤ n → n < attempt + fuel → propose n = propose' n) →
      generatePuzzleGo propose dateKey fuel attempt
        = generatePuzzleGo propose' dateKey fuel attempt := by
  intro fuel
  induction fuel with
  | zero => intro attempt h; rfl
  | succ k ih =>
      intro attempt h
      rw [generatePuzzleGo, generatePuzzleGo]
      rw [h attempt (le_refl _) (by omega)]
      cases (propose' attempt).bind buildPuzzleFromAIResponse with
      | error e => exact ih (attempt + 1) (fun n hn1 hn2 => h n (by omega) (by omega))
      | ok puzzle =>
          dsimp only
          by_cases hv : (validatePuzzle puzzle).valid
          · simp [hv]
          · simp only [Bool.not_eq_true] at hv
            simp only [hv, Bool.false_eq_true, if_false, ite_false]
            exact ih (attempt + 1) (fun n hn1 hn2 => h n (by omega) (by omega))

theorem int_eq_of_abs_sub_le_half {k m : ℤ} (h : |(k : ℚ) - (m : ℚ)| ≤ 1 / 2) :
    k = m := by
  by_contra hne
  have h1 : 1 ≤ |k - m| := Int.one_le_abs (sub_ne_zero.mpr hne)
  have h2 : (1 : ℚ) ≤ |((k - m : ℤ) : ℚ)| := by exact_mod_cast h1
  have h3 : |((k - m : ℤ) : ℚ)| = |(k : ℚ) - (m : ℚ)| := by push_cast; ring_nf
  linarith [h3 ▸ h2]

theorem termErrors_eq_nil (i : ℕ) (s : List ℚ) : ∀ j : ℕ,
    (termErrors i j s = [] ↔
      ∀ v ∈ s, isJsInteger v = true ∧ MIN_VALUE ≤ v ∧ v ≤ MAX_VALUE) := by
  induction s with
  | nil => intro j; simp [termErrors]
  | cons v rest ih =>
      intro j
      simp only [termErrors, List.append_eq_nil, List.mem_cons, forall_eq_or_imp]
      constructor
      · rintro ⟨⟨ha, hb⟩, hc⟩
        refine ⟨⟨?_, ?_, ?_⟩, (ih (j + 1)).mp hc⟩
        · by_contra h1; simp [h1] at ha
        · by_contra h2; rw [not_le] at h2; simp [Or.inl h2] at hb
        · by_contra h3; rw [not_le] at h3; simp [Or.inr h3] at hb
      · rintro ⟨⟨h1, h2, h3⟩, hrest⟩
        have hor : ¬(v < MIN_VALUE ∨ MAX_VALUE < v) :=
          not_or.mpr ⟨not_lt.mpr h2, not_lt.mpr h3⟩
        exact ⟨⟨by simp [h1], by simp [hor]⟩, (ih (j + 1)).mpr hrest⟩

theorem sequenceErrors_eq_nil (ss : List (List ℚ)) : ∀ i : ℕ,
    (sequenceErrors i ss = [] ↔
      ∀ s ∈ ss, MIN_SEQUENCE_LENGTH ≤ s.length ∧
        ∀ v ∈ s, isJsInteger v = true ∧ MIN_VALUE ≤ v ∧ v ≤ MAX_VALUE) := by
  induction ss with
  | nil => intro i; simp [sequenceErrors]
  | cons s rest ih =>
      intro i
      simp only [sequenceErrors, List.append_eq_nil, List.mem_cons, forall_eq_or_imp]
      constructor
      · rintro ⟨⟨ha, hb⟩, hc⟩
        refine ⟨⟨?_, (termErrors_eq_nil i s 0).mp hb⟩, (ih (i + 1)).mp hc⟩
        by_contra h1; rw [not_le] at h1; simp [h1] at ha
      · rintro ⟨⟨h1, h2⟩, hrest⟩
        exact ⟨⟨by simp [not_lt.mpr h1], (termErrors_eq_nil i s 0).mpr h2⟩,
          (ih (i + 1)).mpr hrest⟩

theorem answerErrors_eq_nil (l : List ℚ) : ∀ i : ℕ,
    (answerErrors i l = [] ↔
      ∀ a ∈ l, isJsInteger a = true ∧ MIN_VALUE ≤ a ∧ a ≤ MAX_VALUE) := by
  induction l with
  | nil => intro i; simp [answerErrors]
  | cons a rest ih =>
      intro i
      simp only [answerErrors, List.append_eq_nil, List.mem_cons, forall_eq_or_imp]
      constructor
      · rintro ⟨⟨ha, hb⟩, hc⟩
        refine ⟨⟨?_, ?_, ?_⟩, (ih (i + 1)).mp hc⟩
        · by_contra h1; simp [h1] at ha
        · by_contra h2; rw [not_le] at h2; simp [Or.inl h2] at hb
        · by_contra h3; rw [not_le] at h3; simp [Or.inr h3] at hb
      · rintro ⟨⟨h1, h2, h3⟩, hrest⟩
        have hor : ¬(a < MIN_VALUE ∨ MAX_VALUE < a) :=
          not_or.mpr ⟨not_lt.mpr h2, not_lt.mpr h3⟩
        exact ⟨⟨by simp [h1], by simp [hor]⟩, (ih (i + 1)).mpr hrest⟩

theorem validateStructure_valid_iff (p : PuzzleData) :
    (validateStructure p).valid = true ↔ structuralOkSpec p := by
  simp only [validateStructure, structuralOkSpec, List.isEmpty_iff, List.append_eq_nil]
  by_cases h0 : p.sequences.length = 0
  · have h0' : p.sequences = [] := List.length_eq_zero.mp h0
    simp [h0, h0']
  · have h0' : p.sequences ≠ [] := fun he => h0 (by simp [he])
    by_cases hc : p.answers.length = p.sequences.length <;>
      by_cases hh : p.hints.length = 2 <;>
      by_cases he : 10 ≤ p.explanation.length <;>
      simp [h0, h0', hc, hh, he, sequenceErrors_eq_nil, answerErrors_eq_nil,
        not_le.mpr, forall_and] <;>
      tauto

theorem toInt32_congr {a b : ℤ} (h : ((2 : ℤ) ^ 32) ∣ (a - b)) :
    toInt32 a = toInt32 b := by
  obtain ⟨k, hk⟩ := h
  unfold toInt32
  have hab : a + 2 ^ 31 = (b + 2 ^ 31) + 2 ^ 32 * k := by linarith
  rw [hab, Int.add_mul_emod_self_left]

theorem toInt32_sub_self (x : ℤ) : ((2 : ℤ) ^ 32) ∣ (toInt32 x - x) :=
  ⟨-((x + 2 ^ 31) / 2 ^ 32), by rw [toInt32, Int.emod_def]; ring⟩

theorem toInt32_step (h c : ℤ) :
    toInt32 (toInt32 (h * 32) - h + c) = toInt32 (h * 31 + c) := by
  apply toInt32_congr
  obtain ⟨k, hk⟩ := toInt32_sub_self (h * 32)
  exact ⟨k, by linarith⟩

theorem hashDateToIndex_eq_spec (dateKey : String) (max : ℕ) :
    hashDateToIndex dateKey max = (specRollingHash dateKey).natAbs % max := by
  simp only [hashDateToIndex, specRollingHash, toInt32_step]

theorem eval_ok_of_nonPositional (rt : String) (h : rt ∈ nonPositionalKinds)
    (s : List ℤ) (params : RuleProgramParams) (pos : ℕ) :
    ∃ v, evaluateNextValue s rt params pos = .ok v := by
  simp only [nonPositionalKinds, List.mem_cons, List.not_mem_nil, or_false] at h
  rcases h with h | h | h | h | h | h | h | h | h | h | h <;> subst h <;>
    simp only [evaluateNextValue] <;>
    (repeat' split) <;> exact ⟨_, rfl⟩

theorem extendLoop_ok (rt : String) (hrt : rt ∈ nonPositionalKinds)
    (params : RuleProgramParams) :
    ∀ (fuel : ℕ) (s : List ℤ), s ≠ [] →
      ∃ s', extendLoop rt params fuel s = .ok s' ∧ s'.headD 0 = s.headD 0 ∧ s' ≠ [] := by
  intro fuel
  induction fuel with
  | zero => intro s hs; exact ⟨s, rfl, rfl, hs⟩
  | succ k ih =>
      intro s hs
      obtain ⟨v, hv⟩ := eval_ok_of_nonPositional rt hrt s params (s.length + 1)
      obtain ⟨s', hs', hh, hne⟩ := ih (s ++ [v]) (by simp)
      refine ⟨s', ?_, ?_, hne⟩
      · rw [extendLoop, hv]
        exact hs'
      · rw [hh]
        cases s with
        | nil => exact absurd rfl hs
        | cons a t => simp

theorem variedStart_head (b : ℤ) (t : List ℤ) (i : ℕ) :
    (variedStart (b :: t) i).headD 0 = b + (i : ℤ) * 2 := by
  simp [variedStart]

theorem variedStart_ne_nil (base : List ℤ) (hbase : base ≠ []) (i : ℕ) :
    variedStart base i ≠ [] := by
  cases base with
  | nil => exact absurd rfl hbase
  | cons b t => simp [variedStart]

theorem generateSequence_head (rt : String) (hrt : rt ∈ nonPositionalKinds)
    (params : RuleProgramParams) (len : ℕ) (hlen : 1 ≤ len) (sv : List ℤ) (hsv : sv ≠ []) :
    ∃ g, generateSequence rt params len (some sv) = .ok g ∧
      g.sequence.headD 0 = sv.headD 0 := by
  have hpos : rt ∉ positionalKinds := by
    revert hrt
    have : ∀ x ∈ nonPositionalKinds, x ∉ positionalKinds := by decide
    exact fun hrt => this rt hrt
  have hseedne : sv.take len ≠ [] := by
    cases sv with
    | nil => exact absurd rfl hsv
    | cons a t =>
        cases len with
        | zero => omega
        | succ m => simp
  have hseedh : (sv.take len).headD 0 = sv.headD 0 := by
    cases sv with
    | nil => exact absurd rfl hsv
    | cons a t =>
        cases len with
        | zero => omega
        | succ m => simp
  obtain ⟨s', hs', hh, hne⟩ :=
    extendLoop_ok rt hrt params (len - (sv.take len).length) (sv.take len) hseedne
  obtain ⟨v, hv⟩ := eval_ok_of_nonPositional rt hrt s' params (len + 1)
  refine ⟨⟨s', v⟩, ?_, ?_⟩
  · simp only [generateSequence, hpos, ite_false, if_neg, Option.getD_some]
    rw [hs']
    show (do
      let nextValue ← evaluateNextValue s' rt params (len + 1)
      pure (⟨s', nextValue⟩ : GeneratedSequence)) = _
    rw [hv]
    rfl
  · rw [hh, hseedh]

theorem exceptMapM_ok {α β : Type} (f : α → Except String β) :
    ∀ (l : List α) (g : α → β), (∀ x ∈ l, f x = .ok (g x)) →
      l.mapM f = .ok (l.map g) := by
  intro l
  induction l with
  | nil => intro g h; rfl
  | cons x xs ih =>
      intro g h
      rw [List.mapM_cons, h x (by simp), ih g (fun y hy => h y (by simp [hy]))]
      rfl

theorem jsRound_eq {q : ℚ} {z : ℤ} (h1 : (z : ℚ) ≤ q + 1 / 2)
    (h2 : q + 1 / 2 < (z : ℚ) + 1) : jsRound q = z := by
  rw [jsRound, Int.floor_eq_iff]
  exact ⟨h1, h2⟩

theorem fitQuadratic_135 :
    fitQuadratic [1, 4, 7, 10, 13] =
      { coefficients := (0, 3, -2), nextValue := 16, error := some 0 } := by
  simp only [fitQuadratic]
  rw [show ([1, 4, 7, 10, 13] : List ℚ).length = 5 from rfl]
  rw [show ([1, 4, 7, 10, 13] : List ℚ).enum
      = [(0, 1), (1, 4), (2, 7), (3, 10), (4, 13)] from rfl]
  rw [show ((List.range 5).map (fun i => ((i : ℚ) + 1))).sum = 15 by
        norm_num [List.range_succ]]
  rw [show ((List.range 5).map (fun i => ((i : ℚ) + 1) ^ 2)).sum = 55 by
        norm_num [List.range_succ]]
  rw [show ((List.range 5).map (fun i => ((i : ℚ) + 1) ^ 3)).sum = 225 by
        norm_num [List.range_succ]]
  rw [show ((List.range 5).map (fun i => ((i : ℚ) + 1) ^ 4)).sum = 979 by
        norm_num [List.range_succ]]
  rw [show ([1, 4, 7, 10, 13] : List ℚ).sum = 35 by norm_num]
  rw [show (([(0, 1), (1, 4), (2, 7), (3, 10), (4, 13)] : List (ℕ × ℚ)).map
      (fun p => ((p.1 : ℚ) + 1) * p.2)).sum = 135 by norm_num]
  rw [show (([(0, 1), (1, 4), (2, 7), (3, 10), (4, 13)] : List (ℕ × ℚ)).map
      (fun p => ((p.1 : ℚ) + 1) ^ 2 * p.2)).sum = 565 by norm_num]
  rw [if_neg (by norm_num)]
  simp only [QuadFit.mk.injEq, Prod.mk.injEq]
  refine ⟨⟨by norm_num, by norm_num, by norm_num⟩, ?_, by norm_num⟩
  apply jsRound_eq <;> push_cast <;> norm_num

theorem cdiff_135 :
    checkConstantDifference [1, 4, 7, 10, 13] = ⟨true, some 3, some 16⟩ := by
  norm_num [checkConstantDifference, consecutiveDifferences, List.range_succ]

theorem cratio_135 :
    checkConstantRatio [1, 4, 7, 10, 13] = ⟨false, none, none⟩ := by
  have hr : consecutiveRatios [1, 4, 7, 10, 13] = [4, 7 / 4, 10 / 7, 13 / 10] := by
    norm_num [consecutiveRatios, List.range_succ]
  simp only [checkConstantRatio, hr]
  split_ifs with h1 h2
  · rfl
  · exfalso
    obtain ⟨hall, -⟩ := h2
    simp only [List.all_cons, List.headD_cons, Bool.and_eq_true,
      decide_eq_true_eq] at hall
    obtain ⟨-, hx, -⟩ := hall
    rw [abs_lt] at hx
    have := hx.1
    norm_num at this
  · rfl

theorem calt_135 :
    checkAlternatingPattern [1, 4, 7, 10, 13] = ⟨false, none, none⟩ := by
  have hd : consecutiveDifferences [1, 4, 7, 10, 13] = [3, 3, 3, 3] := by
    norm_num [consecutiveDifferences, List.range_succ]
  simp only [checkAlternatingPattern, hd]
  decide

theorem alts_135 (ans : ℚ) (h16 : (16 : ℚ) ≠ ans) :
    ambiguityAlternatives [1, 4, 7, 10, 13] ans
      = [⟨.quadratic, 16⟩, ⟨.constant_diff, 16⟩] := by
  simp only [ambiguityAlternatives, fitQuadratic_135, cdiff_135, cratio_135, calt_135]
  norm_num [quadErrorBelowHalf, h16]

theorem fitsq_135 (ans : ℚ) (hfar : ¬(|((16 : ℤ) : ℚ) - ans| ≤ 1 / 2)) :
    altFitsAllSequences [[1, 4, 7, 10, 13]] [ans] ⟨.quadratic, 16⟩ = false := by
  simp only [altFitsAllSequences]
  rw [show (([[1, 4, 7, 10, 13]] : List (List ℚ))).length = 1 from rfl,
      show List.range 1 = [0] from rfl]
  simp only [List.all_cons, List.all_nil, Bool.and_true, altFitsAt,
    List.getD_cons_zero, fitQuadratic_135]
  exact decide_eq_false hfar

theorem fitsd_135 (ans : ℚ) (hne : (16 : ℚ) ≠ ans) :
    altFitsAllSequences [[1, 4, 7, 10, 13]] [ans] ⟨.constant_diff, 16⟩ = false := by
  simp only [altFitsAllSequences]
  rw [show (([[1, 4, 7, 10, 13]] : List (List ℚ))).length = 1 from rfl,
      show List.range 1 = [0] from rfl]
  simp only [List.all_cons, List.all_nil, Bool.and_true, altFitsAt,
    List.getD_cons_zero, cdiff_135]
  simp [hne]

theorem fitsq_135_half :
    altFitsAllSequences [[1, 4, 7, 10, 13]] [33 / 2] ⟨.quadratic, 16⟩ = true := by
  simp only [altFitsAllSequences]
  rw [show (([[1, 4, 7, 10, 13]] : List (List ℚ))).length = 1 from rfl,
      show List.range 1 = [0] from rfl]
  simp only [List.all_cons, List.all_nil, Bool.and_true, altFitsAt,
    List.getD_cons_zero, fitQuadratic_135]
  apply decide_eq_true
  rw [abs_le]
  push_cast
  norm_num

/-! ### Claim theorems -/

/-- C1 (counterexample): for the single-sequence puzzle `[1,4,7,10,13]` with
stated answer 20, the ambiguity check's error list is empty — the
constant-difference rival predicting 16 is NOT reported as an error,
contrary to the claim.  The fits-all re-check re-runs the detector on the
primary sequence itself, where its prediction 16 differs from the stated
answer 20, so `fitsAllSequences` is false and the rival is downgraded. -/
theorem ambiguity_wrongAnswer_no_error :
    (validateAmbiguity wrongAnswerPuzzle).errors = [] := by
  simp only [validateAmbiguity, wrongAnswerPuzzle, List.getD_cons_zero]
  rw [alts_135 20 (by norm_num)]
  rw [List.filter_cons, List.filter_cons, List.filter_nil]
  rw [fitsq_135 20 (by rw [abs_le]; push_cast; norm_num), fitsd_135 20 (by norm_num)]
  rfl

/-- C1 (amended): for the single-sequence puzzle `[1,4,7,10,13]` with stated
answer 20, the ambiguity check does yield at least one error-or-warning, but
the constant-difference rival (16), like the exact quadratic fit (16),
surfaces as a warning, not an error: the result is exactly
`valid = true`, no errors, and the two disambiguation warnings. -/
theorem ambiguity_wrongAnswer_rival_warned :
    validateAmbiguity wrongAnswerPuzzle =
      { valid := true, errors := [],
        warnings :=
          ["Alternative quadratic pattern predicts 16 but is disambiguated by other sequences",
           "Alternative constant_diff pattern predicts 16 but is disambiguated by other sequences"] } := by
  simp only [validateAmbiguity, wrongAnswerPuzzle, List.getD_cons_zero]
  rw [alts_135 20 (by norm_num)]
  rw [List.filter_cons, List.filter_cons, List.filter_nil,
      List.filter_cons, List.filter_cons, List.filter_nil]
  rw [fitsq_135 20 (by rw [abs_le]; push_cast; norm_num), fitsd_135 20 (by norm_num)]
  rfl

/-- C2 (counterexample): `validateAmbiguity` does NOT return an empty error
list for every puzzle.  With the non-integer stated answer 16.5 on
`[1,4,7,10,13]`, the quadratic rival predicts 16, `|16 - 16.5| = 0.5` is not
`> 0.5`, so the fits-all re-check passes even at the primary sequence and the
error branch fires. -/
theorem ambiguity_error_reachable_half_answer :
    (validateAmbiguity halfAnswerPuzzle).errors ≠ [] := by
  simp only [validateAmbiguity, halfAnswerPuzzle, List.getD_cons_zero]
  rw [alts_135 (33 / 2) (by norm_num)]
  rw [List.filter_cons, List.filter_cons, List.filter_nil]
  rw [fitsq_135_half]
  simp

/-- C2 (amended): for every puzzle whose primary index is in range and whose
stated primary answer is an integer (`den = 1`), `validateAmbiguity` returns
an empty error list, hence `valid = true`: every rival enters the
alternatives list only when its prediction differs from the stated answer,
and the fits-all re-check re-runs the same deterministic detector on the
primary sequence itself, where the differing prediction re-appears (for the
quadratic method, two distinct integers are more than 0.5 apart), so
`fitsAllSequences` is always false and each rival is emitted as a warning. -/
theorem ambiguity_error_unreachable_int_answer (p : PuzzleData)
    (hidx : p.primarySequenceIndex < p.sequences.length)
    (hden : (p.answers.getD p.primarySequenceIndex 0).den = 1) :
    (validateAmbiguity p).errors = [] := by
  simp only [validateAmbiguity]
  rw [List.map_eq_nil_iff]
  rw [List.filter_eq_nil_iff]
  intro alt hmem hfits
  have hat : altFitsAt p.sequences p.answers alt p.primarySequenceIndex = true :=
    List.all_eq_true.mp hfits _ (List.mem_range.mpr hidx)
  obtain ⟨m, hm⟩ : ∃ m : ℤ, (m : ℚ) = p.answers.getD p.primarySequenceIndex 0 :=
    ⟨_, Rat.coe_int_num_of_den_eq_one hden⟩
  simp only [ambiguityAlternatives, List.mem_append] at hmem
  rcases hmem with ((hq | hd) | hr) | ha
  · split_ifs at hq with hC
    · simp only [List.mem_singleton] at hq
      subst hq
      simp only [altFitsAt, decide_eq_true_eq] at hat
      rw [← hm] at hat hC
      have := int_eq_of_abs_sub_le_half hat
      exact hC.2 (by exact_mod_cast this)
    · simp at hq
  · split_ifs at hd with hC
    · simp only [List.mem_singleton] at hd
      subst hd
      simp only [altFitsAt, hC.1, Bool.true_and, decide_eq_true_eq] at hat
      exact hC.2 hat
    · simp at hd
  · split_ifs at hr with hC
    · simp only [List.mem_singleton] at hr
      subst hr
      simp only [altFitsAt, hC.1, Bool.true_and, decide_eq_true_eq] at hat
      exact hC.2 hat
    · simp at hr
  · split_ifs at ha with hC
    · simp only [List.mem_singleton] at ha
      subst ha
      simp only [altFitsAt, hC.1, Bool.true_and, decide_eq_true_eq] at hat
      exact hC.2 hat
    · simp at ha

/-- C2 (witness): the amended theorem applied to a concrete single-sequence
puzzle with integer answer 16. -/
theorem ambiguity_error_unreachable_int_answer_witness :
    (validateAmbiguity honestPuzzle).errors = [] :=
  ambiguity_error_unreachable_int_answer honestPuzzle (by decide) (by decide)

set_option maxRecDepth 10000 in
/-- C3 (counterexample): an unrecognized rule-kind token is NOT propagated to
the orchestrator's caller as a fatal failure.  The evaluator does raise
`UnknownRule` for the corrupted token, but with a proposal source that always
returns that token `generatePuzzle` recovers internally (its catch-all
`try/catch` treats the throw like any retryable failure) and hands the caller
a normal fallback result. -/
theorem unknownRule_not_propagated_cex :
    evaluateNextValue [1] "SOME_CORRUPTED_RULE" ({} : RuleProgramParams) 2
      = .error "Unknown rule type: SOME_CORRUPTED_RULE" ∧
    generatePuzzle (fun _ => .ok bogusResponse) "2024-06-15" 0
      = (fallbackFor "2024-06-15", true) := by
  constructor
  · rfl
  · rw [generatePuzzle_eq_go _ _ MAX_GENERATION_ATTEMPTS 0 rfl]
    decide

/-- C3 (amended): when an unrecognized rule-kind token reaches the
evaluator's dispatch, `UnknownRule` is raised — but the orchestrator's
catch-all recovery swallows it like any other attempt failure: with a
proposal source whose responses always carry an unrecognized kind,
`generatePuzzle` retries and finally returns the date-keyed fallback with
`isFallback = true`, never failing outward (its public contract is a total
function into `PuzzleData × Bool`). -/
theorem unknownRule_raised_but_recovered :
    (∀ (s : List ℤ) (params : RuleProgramParams) (pos : ℕ) (rt : String),
      rt ∉ knownRuleKinds →
      evaluateNextValue s rt params pos = .error ("Unknown rule type: " ++ rt)) ∧
    (∀ (propose : ℕ → Except String AIResponse) (dateKey : String),
      (∀ n, ∃ r, propose n = .ok r ∧ r.ruleProgramType ∉ knownRuleKinds) →
      generatePuzzle propose dateKey 0 = (fallbackFor dateKey, true)) := by
  constructor
  · exact eval_unknown
  · intro propose dateKey h
    apply generatePuzzle_allBad
    intro n p hbind
    obtain ⟨r, hr, hru⟩ := h n
    rw [hr] at hbind
    have hb : buildPuzzleFromAIResponse r = .ok p := hbind
    rw [build_unknown r hru] at hb
    exact absurd hb (by simp)

/-- C3 (witness): the amended theorem applied to the token TOTALLY_BOGUS and
a concrete always-corrupted proposal source. -/
theorem unknownRule_raised_but_recovered_witness :
    evaluateNextValue [3] "TOTALLY_BOGUS" ({} : RuleProgramParams) 1
      = .error "Unknown rule type: TOTALLY_BOGUS" ∧
    generatePuzzle (fun _ => .ok bogusResponse2) "2025-12-31" 0
      = (fallbackFor "2025-12-31", true) :=
  ⟨unknownRule_raised_but_recovered.1 [3] {} 1 "TOTALLY_BOGUS" (by decide),
   unknownRule_raised_but_recovered.2 (fun _ => .ok bogusResponse2) "2025-12-31"
     (fun _ => ⟨bogusResponse2, rfl, by decide⟩)⟩

/-- C4: the orchestrator always terminates (it is a total function of its
proposal oracle and date).  First conjunct: if every attempt's
propose-and-build pipeline fails or yields an invalid puzzle, the run from
attempt 0 returns the date-keyed fallback with `isFallback = true`.  Second
conjunct: the result depends on the proposal source only through its first
`MAX_GENERATION_ATTEMPTS = 20` attempts — the attempt counter is a hard
ceiling on the retry recursion. -/
theorem generatePuzzle_bounded_fallback :
    (∀ (propose : ℕ → Except String AIResponse) (dateKey : String),
      (∀ n p, (propose n).bind buildPuzzleFromAIResponse = .ok p →
        (validatePuzzle p).valid = false) →
      generatePuzzle propose dateKey 0 = (fallbackFor dateKey, true)) ∧
    (∀ (propose propose' : ℕ → Except String AIResponse) (dateKey : String),
      (∀ n, n < MAX_GENERATION_ATTEMPTS → propose n = propose' n) →
      generatePuzzle propose dateKey 0 = generatePuzzle propose' dateKey 0) := by
  constructor
  · intro propose dateKey h
    exact generatePuzzle_allBad propose dateKey h 0
  · intro propose propose' dateKey h
    rw [generatePuzzle_eq_go propose dateKey MAX_GENERATION_ATTEMPTS 0 rfl,
        generatePuzzle_eq_go propose' dateKey MAX_GENERATION_ATTEMPTS 0 rfl]
    exact generatePuzzleGo_congr propose propose' dateKey MAX_GENERATION_ATTEMPTS 0
      (fun n _ hn2 => h n (by omega))

/-- C4 (witness): a proposal source that always fails with a transport error
drives the orchestrator to the fallback result. -/
theorem generatePuzzle_bounded_fallback_witness :
    generatePuzzle (fun _ => .error "transport failure") "2024-01-01" 0
      = (fallbackFor "2024-01-01", true) :=
  generatePuzzle_bounded_fallback.1 _ "2024-01-01"
    (fun _ p h => Except.noConfusion h)

/-- C5 (counterexample): `evaluateNextValue` is NOT determined by the last
three elements plus the position alone: `[5]` and `[0, 5]` agree on their
last three elements (`(5, 0, 0)`, absent entries read as 0), yet under
LINEAR_DIFF (default parameters) at position 3 the first yields 6 and the
second 7, because the rule reads `sequence.length` as the term count. -/
theorem evaluateNextValue_lastThree_insufficient_cex :
    lastThree [5] = lastThree [0, 5] ∧
    evaluateNextValue [5] "LINEAR_DIFF" ({} : RuleProgramParams) 3 = .ok 6 ∧
    evaluateNextValue [0, 5] "LINEAR_DIFF" ({} : RuleProgramParams) 3 = .ok 7 := by
  decide

/-- C5 (amended): `evaluateNextValue` depends on at most the last three
elements of the sequence-so-far (absent entries defaulting to 0), the LENGTH
of the sequence-so-far (the term count, read by LINEAR_DIFF,
SECOND_ORDER_CONSTANT and ALTERNATING_OPS), and the 1-indexed position: any
two inputs agreeing on both the last three elements and the length yield the
same result for every rule kind and parameters. -/
theorem evaluateNextValue_determined_by_lastThree_and_length
    (s1 s2 : List ℤ) (ruleType : String) (params : RuleProgramParams)
    (position : ℕ) (h3 : lastThree s1 = lastThree s2)
    (hlen : s1.length = s2.length) :
    evaluateNextValue s1 ruleType params position
      = evaluateNextValue s2 ruleType params position := by
  have e1 : s1.getLastD 0 = s2.getLastD 0 := congrArg Prod.fst h3
  have e2 : (if 2 ≤ s1.length then s1.getD (s1.length - 2) 0 else 0)
      = (if 2 ≤ s2.length then s2.getD (s2.length - 2) 0 else 0) :=
    congrArg (fun t => t.2.1) h3
  have e3 : (if 3 ≤ s1.length then s1.getD (s1.length - 3) 0 else 0)
      = (if 3 ≤ s2.length then s2.getD (s2.length - 3) 0 else 0) :=
    congrArg (fun t => t.2.2) h3
  simp only [evaluateNextValue]
  rw [e1, e2, e3, hlen]

/-- C5 (witness): two different four-term sequences with equal length and
equal last three elements evaluate identically. -/
theorem evaluateNextValue_determined_witness :
    lastThree [1, 5, 6, 7] = lastThree [2, 5, 6, 7] ∧
    [1, 5, 6, 7].length = [2, 5, 6, 7].length ∧
    evaluateNextValue [1, 5, 6, 7] "FIBONACCI_LIKE" ({} : RuleProgramParams) 5
      = evaluateNextValue [2, 5, 6, 7] "FIBONACCI_LIKE" ({} : RuleProgramParams) 5 :=
  ⟨by decide, by decide,
   evaluateNextValue_determined_by_lastThree_and_length [1, 5, 6, 7] [2, 5, 6, 7]
     "FIBONACCI_LIKE" {} 5 (by decide) (by decide)⟩

/-- C6: the structural check passes exactly when the spec's enumerated
conditions all hold (first conjunct), and violations are collected rather
than short-circuited: the puzzle with one 3-term sequence and a mismatched
answer count yields `valid = false` with at least the two distinct error
strings for those two violations. -/
theorem validateStructure_exact_and_collected :
    (∀ p : PuzzleData, (validateStructure p).valid = true ↔ structuralOkSpec p) ∧
    ((validateStructure shortPuzzle).valid = false ∧
      "Sequence 1 has fewer than 4 terms" ∈ (validateStructure shortPuzzle).errors ∧
      "Answers count does not match sequences count"
        ∈ (validateStructure shortPuzzle).errors ∧
      ("Sequence 1 has fewer than 4 terms" : String)
        ≠ "Answers count does not match sequences count") :=
  ⟨validateStructure_valid_iff, by decide, by decide, by decide, by decide⟩

/-- C7: the fallback hash agrees with the spec's formulation — per character
`hash = hash * 31 + charCode` wrapped to signed 32-bit, then absolute value
modulo the catalog size 5 (`(hash << 5) - hash ≡ hash * 31` modulo `2^32`) —
and the fallback selection at the attempt ceiling is a function of the date
string alone, so repeated selections for a fixed date pick the same catalog
entry. -/
theorem fallback_hash_deterministic :
    (∀ dateKey : String,
      hashDateToIndex dateKey FALLBACK_PUZZLES.length
        = (specRollingHash dateKey).natAbs % 5) ∧
    (∀ (propose : ℕ → Except String AIResponse) (dateKey : String),
      generatePuzzle propose dateKey MAX_GENERATION_ATTEMPTS
        = (FALLBACK_PUZZLES.getD ((specRollingHash dateKey).natAbs % 5) emptyPuzzle,
           true)) := by
  have hlen : FALLBACK_PUZZLES.length = 5 := rfl
  constructor
  · intro d
    rw [hashDateToIndex_eq_spec, hlen]
  · intro propose d
    rw [generatePuzzle, if_pos (le_refl _)]
    unfold fallbackFor
    rw [hashDateToIndex_eq_spec, hlen]

/-- C8: every `ValidationResult` produced by `validateStructure`,
`validateDifficulty`, `validateAmbiguity` and the full `validatePuzzle`
pipeline satisfies `valid = true` iff its error list is empty; each function
computes `valid` from the errors alone, so warnings never affect it. -/
theorem validationResult_valid_iff_no_errors (p : PuzzleData) :
    ((validateStructure p).valid = true ↔ (validateStructure p).errors = []) ∧
    ((validateDifficulty p).valid = true ↔ (validateDifficulty p).errors = []) ∧
    ((validateAmbiguity p).valid = true ↔ (validateAmbiguity p).errors = []) ∧
    ((validatePuzzle p).valid = true ↔ (validatePuzzle p).errors = []) := by
  refine ⟨?_, ?_, ?_, ?_⟩ <;>
    simp only [validateStructure, validateDifficulty, validateAmbiguity,
      validatePuzzle, List.isEmpty_iff]

/-- C9: for every non-positional rule kind, `generateMultipleSequences`
derives output `i`'s starting values by adding `i * (idx + 1) * 2` to each
base value (so output `i`'s first element is the base head plus `2 i`), and
consequently the first elements of the returned sequences differ pairwise;
stated for a non-empty effective base starting-value list (the default is
`[1]`) and `length ≥ 1`. -/
theorem generateMultipleSequences_seed_spread (rt : String)
    (params : RuleProgramParams) (count len : ℕ)
    (hrt : rt ∈ nonPositionalKinds) (hbase : params.startingValues.getD [1] ≠ [])
    (hlen : 1 ≤ len) :
    ∃ gs, generateMultipleSequences rt params count len = .ok gs ∧
      gs.length = count ∧
      (∀ i, i < count → (gs.getD i default).sequence.headD 0
        = (params.startingValues.getD [1]).headD 0 + (i : ℤ) * 2) ∧
      (∀ i j, i < count → j < count → i ≠ j →
        (gs.getD i default).sequence.headD 0
          ≠ (gs.getD j default).sequence.headD 0) := by
  have hnp : rt ∉ positionalKinds := by
    revert hrt
    have : ∀ x ∈ nonPositionalKinds, x ∉ positionalKinds := by decide
    exact fun hrt => this rt hrt
  have h1 : ¬(rt = "POSITIONAL_FORMULA" ∨ rt = "CUBIC_POSITIONAL") := by
    simp only [positionalKinds, List.mem_cons, List.not_mem_nil, or_false, not_or] at hnp
    tauto
  have h2 : rt ≠ "POWER_BASED" := by
    simp only [positionalKinds, List.mem_cons, List.not_mem_nil, or_false, not_or] at hnp
    tauto
  let g : ℕ → GeneratedSequence := fun i =>
    ((generateSequence rt params len
      (some (variedStart (params.startingValues.getD [1]) i))).toOption).getD default
  have hg : ∀ i, generateSequence rt params len
      (some (variedStart (params.startingValues.getD [1]) i)) = .ok (g i) := by
    intro i
    obtain ⟨y, hy, _⟩ := generateSequence_head rt hrt params len hlen _
      (variedStart_ne_nil _ hbase i)
    rw [hy]
    simp only [g, hy, Except.toOption, Option.getD_some]
  have hghead : ∀ i, (g i).sequence.headD 0
      = (variedStart (params.startingValues.getD [1]) i).headD 0 := by
    intro i
    obtain ⟨y, hy, hhead⟩ := generateSequence_head rt hrt params len hlen _
      (variedStart_ne_nil _ hbase i)
    have hgy : g i = y := by simp only [g, hy, Except.toOption, Option.getD_some]
    rw [hgy]
    exact hhead
  obtain ⟨b, t, hbt⟩ : ∃ b t, params.startingValues.getD [1] = b :: t := by
    cases hb : params.startingValues.getD [1] with
    | nil => exact absurd hb hbase
    | cons b t => exact ⟨b, t, rfl⟩
  have hform : ∀ i, i < count →
      (((List.range count).map g).getD i default).sequence.headD 0
        = (params.startingValues.getD [1]).headD 0 + (i : ℤ) * 2 := by
    intro i hi
    have hgd : ((List.range count).map g).getD i default = g i := by
      rw [List.getD_eq_getElem _ _ (by simpa using hi)]
      simp [hi]
    rw [hgd, hghead i, hbt, variedStart_head]
    simp
  refine ⟨(List.range count).map g, ?_, by simp, hform, ?_⟩
  · rw [generateMultipleSequences, if_neg h1, if_neg h2]
    exact exceptMapM_ok _ _ g (fun x _ => hg x)
  · intro i j hi hj hne heq
    rw [hform i hi, hform j hj] at heq
    have : (i : ℤ) = (j : ℤ) := by omega
    exact hne (by exact_mod_cast this)

/-- C9 (witness): two arithmetic-rule outputs from base starting values
`[1]` have pairwise different first elements. -/
theorem generateMultipleSequences_seed_spread_witness :
    ∃ gs, generateMultipleSequences "ARITHMETIC_SEQUENCE"
        { difference := some 3, startingValues := some [1] } 2 5 = .ok gs ∧
      gs.length = 2 ∧
      (∀ i, i < 2 → (gs.getD i default).sequence.headD 0
        = (({ difference := some 3, startingValues := some [1] }
            : RuleProgramParams).startingValues.getD [1]).headD 0 + (i : ℤ) * 2) ∧
      (∀ i j, i < 2 → j < 2 → i ≠ j →
        (gs.getD i default).sequence.headD 0
          ≠ (gs.getD j default).sequence.headD 0) :=
  generateMultipleSequences_seed_spread "ARITHMETIC_SEQUENCE"
    { difference := some 3, startingValues := some [1] } 2 5
    (by decide) (by decide) (by decide)

/-- C10: the integer-ratio guard of `checkConstantRatio` is vacuous: for any
sequence of at least two terms with no zero term whose consecutive ratios
all agree with the first within the `1e-4` tolerance, the detector reports
`isConstant = true` with `ratio = round(r)` and
`nextValue = last * round(r)`, with no requirement that the common ratio be
an integer (JS `Number.isInteger(Math.round(r))` holds for every finite
`r`). -/
theorem checkConstantRatio_integer_guard_vacuous (s : List ℚ)
    (hlen : 2 ≤ s.length) (hz : ∀ v ∈ s, v ≠ 0)
    (htol : ∀ r ∈ consecutiveRatios s,
      |r - (consecutiveRatios s).headD 0| < 1 / 10000) :
    checkConstantRatio s =
      ⟨true, some (jsRound ((consecutiveRatios s).headD 0)),
        some (s.getLastD 0 * ((jsRound ((consecutiveRatios s).headD 0) : ℤ) : ℚ))⟩ := by
  have hcond : ¬(s.length < 2 ∨ s.any (fun v => v = 0) = true) := by
    rw [not_or]
    refine ⟨by omega, ?_⟩
    rw [List.any_eq_true]
    rintro ⟨v, hv, hveq⟩
    exact hz v hv (by simpa using hveq)
  have hall : (consecutiveRatios s).all
      (fun r => |r - (consecutiveRatios s).headD 0| < 1 / 10000) = true := by
    rw [List.all_eq_true]
    intro r hr
    exact decide_eq_true (htol r hr)
  have hint : isJsInteger ((jsRound ((consecutiveRatios s).headD 0) : ℤ) : ℚ) = true := by
    simp [isJsInteger, Rat.intCast_den]
  simp only [checkConstantRatio]
  rw [if_neg hcond, if_pos ⟨hall, hint⟩]

/-- C10 (witness): `[4, 6, 9]` has the non-integer common ratio `3/2`, yet
the detector reports `isConstant = true` with rounded ratio 2 and next value
`9 * 2 = 18`. -/
theorem checkConstantRatio_integer_guard_vacuous_witness :
    checkConstantRatio [4, 6, 9] = ⟨true, some 2, some 18⟩ := by
  have hr : consecutiveRatios [4, 6, 9] = [3 / 2, 3 / 2] := by
    norm_num [consecutiveRatios, List.range_succ]
  have hround : jsRound ((consecutiveRatios [4, 6, 9]).headD 0) = 2 := by
    rw [hr]
    exact jsRound_eq (by norm_num) (by norm_num)
  have h := checkConstantRatio_integer_guard_vacuous [4, 6, 9]
    (by norm_num)
    (by intro v hv; fin_cases hv <;> norm_num)
    (by
      simp only [hr, List.headD_cons]
      intro r hrr
      simp only [List.mem_cons, List.not_mem_nil, or_false] at hrr
      rcases hrr with rfl | rfl <;> rw [sub_self, abs_zero] <;> norm_num)
  rw [h, hround]
  refine congrArg (fun x => RatioCheck.mk true (some 2) x) ?_
  rw [show (([4, 6, 9] : List ℚ).getLastD 0) = 9 from rfl]
  push_cast
  norm_num

end Patternle
